import Mathlib

/-!
Verification of the happy-cli daemon core against its specification.

The definitions below are a shallow embedding of the daemon code:

* the optimistic-concurrency state updates of `ApiSessionClient`
  (`src/src/api/apiSession.ts`, `updateAgentState` / `updateMetadata`);
* the daemon run loop of `startDaemon` (`src/unnamed/part_000`): the
  session registry keyed by OS pid, the self-report webhook handler
  `onHappySessionWebhook`, the session spawner `spawnSession`, the stop
  operation `stopSession`, and the startup single-instance check.

JavaScript `Map` objects are embedded as association lists in insertion
order (`Map.set` updates in place or appends, `Map.delete` removes the
entry with the key).  Machine integers do not occur; pids, ports and
versions are natural numbers.  The remote authority and the few helpers
that live outside the provided sources (`backoff`, `controlClient`) are
modelled from the specification, and are marked as such in their doc
comments.
-/

namespace HappyCli

/-! ## Association-list embedding of JavaScript `Map` and pid sets -/

/-- Lookup in a JS `Map` embedded as an association list. -/
def mapGet {α : Type} (m : List (Nat × α)) (k : Nat) : Option α :=
  match m with
  | [] => none
  | (k0, v0) :: rest => if k0 = k then some v0 else mapGet rest k

/-- `Map.set`: update the entry with key `k` in place, or append a new
entry at the end (JS maps iterate in insertion order). -/
def mapSet {α : Type} (m : List (Nat × α)) (k : Nat) (v : α) : List (Nat × α) :=
  match m with
  | [] => [(k, v)]
  | (k0, v0) :: rest => if k0 = k then (k, v) :: rest else (k0, v0) :: mapSet rest k v

/-- `Map.delete`: remove the entry with key `k` (keys are unique in a JS
map, so removing the first occurrence is removal of the entry). -/
def mapDelete {α : Type} (m : List (Nat × α)) (k : Nat) : List (Nat × α) :=
  match m with
  | [] => []
  | (k0, v0) :: rest => if k0 = k then mapDelete rest k else (k0, v0) :: mapDelete rest k

/-- Membership test for the set of pids that have a pending awaiter
(the keys of the `pidToAwaiter` map; the callbacks themselves are
represented by the resolution values the embedded functions return). -/
def pidSetHas (s : List Nat) (k : Nat) : Bool :=
  match s with
  | [] => false
  | a :: rest => if a = k then true else pidSetHas rest k

/-- `Map.set` on the awaiter map, viewed as a pid set. -/
def pidSetAdd (s : List Nat) (k : Nat) : List Nat :=
  if pidSetHas s k then s else s ++ [k]

/-- `Map.delete` on the awaiter map, viewed as a pid set. -/
def pidSetRemove (s : List Nat) (k : Nat) : List Nat :=
  match s with
  | [] => []
  | a :: rest => if a = k then pidSetRemove rest k else a :: pidSetRemove rest k

theorem mapGet_mapSet_self {α : Type} (m : List (Nat × α)) (k : Nat) (v : α) :
    mapGet (mapSet m k v) k = some v := by
  induction m with
  | nil => simp [mapGet, mapSet]
  | cons hd tl ih =>
    obtain ⟨k0, v0⟩ := hd
    by_cases hk : k0 = k
    · simp [mapGet, mapSet, hk]
    · simp [mapGet, mapSet, hk, ih]

theorem pidSetHas_append_self (s : List Nat) (k : Nat) :
    pidSetHas (s ++ [k]) k = true := by
  induction s with
  | nil => simp [pidSetHas]
  | cons a rest ih =>
    by_cases ha : a = k
    · simp [pidSetHas, ha]
    · simpa [pidSetHas, ha] using ih

theorem pidSetHas_add_self (s : List Nat) (k : Nat) :
    pidSetHas (pidSetAdd s k) k = true := by
  unfold pidSetAdd
  by_cases h : pidSetHas s k = true
  · simp [h]
  · simp [h, pidSetHas_append_self]

theorem pidSetHas_remove_self (s : List Nat) (k : Nat) :
    pidSetHas (pidSetRemove s k) k = false := by
  induction s with
  | nil => simp [pidSetRemove, pidSetHas]
  | cons a rest ih =>
    by_cases ha : a = k
    · simpa [pidSetRemove, ha] using ih
    · simpa [pidSetRemove, pidSetHas, ha] using ih

theorem pidSetRemove_of_not_has (s : List Nat) (k : Nat)
    (h : pidSetHas s k = false) : pidSetRemove s k = s := by
  induction s with
  | nil => simp [pidSetRemove]
  | cons a rest ih =>
    by_cases ha : a = k
    · simp [pidSetHas, ha] at h
    · simp [pidSetHas, ha] at h
      simp [pidSetRemove, ha, ih h]

/-! ## Optimistic-concurrency state updates (`src/src/api/apiSession.ts`) -/

/-- One independently versioned field of the remote record, as mirrored by
the client (`agentState` + `agentStateVersion` of `ApiSessionClient`), and
also the authority's side of the same field. -/
structure VersionedField (α : Type) where
  value : Option α
  version : Nat
deriving DecidableEq, Repr

/-- Answer of the remote authority to an `update-state` emit
(`src/src/api/apiSession.ts` lines 353–367): `result` is `success`,
`version-mismatch` (both carrying the stored value and version) or a hard
`error`. -/
inductive UpdateStateAnswer (α : Type)
  | success (agentState : Option α) (version : Nat)
  | versionMismatch (agentState : Option α) (version : Nat)
  | error
deriving DecidableEq, Repr

/-- Answer handling of one iteration of the `backoff` body of
`updateAgentState` (`src/src/api/apiSession.ts` lines 354–367): on
`success` adopt the returned value and version and finish; on
`version-mismatch` adopt the returned value and version when the returned
version is newer than the local one and retry (the body throws, which makes
`backoff` re-run it); on a hard `error` finish silently without touching
the local state.  The returned Bool is true when the retry loop is done. -/
def applyUpdateStateAnswer {α : Type} (st : VersionedField α) :
    UpdateStateAnswer α → VersionedField α × Bool
  | .success v ver => (⟨v, ver⟩, true)
  | .versionMismatch v ver =>
      (if st.version < ver then ⟨v, ver⟩ else st, false)
  | .error => (st, true)

/-- Modelled from the spec: the remote authority holds the current value
and version of the field; it answers an optimistic write
`(expectedVersion, newValue)` with `success` (storing the value and
bumping the version) when the expected version equals its current one,
and otherwise rejects the stale write with a `version-mismatch` carrying
its current value and version. -/
def authorityAnswer {α : Type} (auth : VersionedField α) (expectedVersion : Nat)
    (sent : Option α) : UpdateStateAnswer α × VersionedField α :=
  if expectedVersion = auth.version then
    (.success sent (auth.version + 1), ⟨sent, auth.version + 1⟩)
  else
    (.versionMismatch auth.value auth.version, auth)

/-- Modelled from the spec: concurrent writers other than this client each
store a new value at the authority and bump the version. -/
def applyExternalWrites {α : Type} (auth : VersionedField α)
    (writes : List (Option α)) : VersionedField α :=
  writes.foldl (fun acc w => ⟨w, acc.version + 1⟩) auth

/-- The retry loop of `updateAgentState` (`src/src/api/apiSession.ts`
lines 348–370): each round computes `updated = handler(agentState or
empty)`, sends it with the locally known version, and handles the answer
with `applyUpdateStateAnswer`; the `backoff` helper (repo code outside
src/, modelled from the spec) re-runs the body after every
version-mismatch.  Before each attempt the authority may first absorb a
batch of concurrent external writes; the recursion is bounded by the list
of those batches.  Returns the final client state, the final authority
state, and whether the loop terminated (success or hard error) within the
given rounds. -/
def runUpdateAgentState {α : Type} (emptyAgentState : α) (handler : α → α) :
    List (List (Option α)) → VersionedField α → VersionedField α →
    VersionedField α × VersionedField α × Bool
  | [], client, auth => (client, auth, false)
  | writes :: rest, client, auth =>
      let auth1 := applyExternalWrites auth writes
      let updated := handler (client.value.getD emptyAgentState)
      let step := authorityAnswer auth1 client.version (some updated)
      let applied := applyUpdateStateAnswer client step.1
      if applied.2 then (applied.1, step.2, true)
      else runUpdateAgentState emptyAgentState handler rest applied.1 step.2

theorem runUpdateAgentState_cons_eq {α : Type} (emptyAgentState : α) (handler : α → α)
    (writes : List (Option α)) (rest : List (List (Option α)))
    (client auth : VersionedField α)
    (h : client.version = (applyExternalWrites auth writes).version) :
    runUpdateAgentState emptyAgentState handler (writes :: rest) client auth =
      (⟨some (handler (client.value.getD emptyAgentState)),
          (applyExternalWrites auth writes).version + 1⟩,
       ⟨some (handler (client.value.getD emptyAgentState)),
          (applyExternalWrites auth writes).version + 1⟩, true) := by
  rw [runUpdateAgentState]
  simp [authorityAnswer, applyUpdateStateAnswer, h]

theorem runUpdateAgentState_cons_ne {α : Type} (emptyAgentState : α) (handler : α → α)
    (writes : List (Option α)) (rest : List (List (Option α)))
    (client auth : VersionedField α)
    (h : ¬ client.version = (applyExternalWrites auth writes).version) :
    runUpdateAgentState emptyAgentState handler (writes :: rest) client auth =
      runUpdateAgentState emptyAgentState handler rest
        (if client.version < (applyExternalWrites auth writes).version then
          ⟨(applyExternalWrites auth writes).value, (applyExternalWrites auth writes).version⟩
         else client)
        (applyExternalWrites auth writes) := by
  rw [runUpdateAgentState]
  simp [authorityAnswer, applyUpdateStateAnswer, h]

theorem runUpdateAgentState_spec {α : Type} (emptyAgentState : α) (handler : α → α)
    (exts : List (List (Option α))) (client auth c1 a1 : VersionedField α)
    (hrun : runUpdateAgentState emptyAgentState handler exts client auth = (c1, a1, true)) :
    c1 = a1 ∧ ∃ preVal : Option α, ∃ preVer : Nat,
      a1 = ⟨some (handler (preVal.getD emptyAgentState)), preVer + 1⟩ := by
  induction exts generalizing client auth with
  | nil => simp [runUpdateAgentState] at hrun
  | cons writes rest ih =>
    by_cases h : client.version = (applyExternalWrites auth writes).version
    · rw [runUpdateAgentState_cons_eq emptyAgentState handler writes rest client auth h] at hrun
      simp only [Prod.mk.injEq] at hrun
      obtain ⟨h1, h2, -⟩ := hrun
      exact ⟨h1.symm.trans h2, client.value, (applyExternalWrites auth writes).version, h2.symm⟩
    · rw [runUpdateAgentState_cons_ne emptyAgentState handler writes rest client auth h] at hrun
      exact ih _ _ hrun

/-- C1: for every invocation of `updateAgentState` with a mutator, a run in
which the authority answers a finite sequence of version-mismatch replies
(each carrying its current value and version, per its optimistic-concurrency
contract) followed by a success — i.e. a run of the retry loop that
terminates with the loop done — leaves the client holding exactly the
authority's final value and version, and that final value is the mutator
applied exactly once to the value adopted just before the successful write
(no double-apply, no lost update).  On a hard error answer the loop
finishes silently with the stored state unchanged. -/
theorem updateAgentState_converges {α : Type} (emptyAgentState : α) (handler : α → α)
    (exts : List (List (Option α))) (start c1 a1 : VersionedField α)
    (hrun : runUpdateAgentState emptyAgentState handler exts start start = (c1, a1, true)) :
    (c1 = a1 ∧ ∃ preVal : Option α, ∃ preVer : Nat,
      a1 = ⟨some (handler (preVal.getD emptyAgentState)), preVer + 1⟩) ∧
    (∀ st : VersionedField α, applyUpdateStateAnswer st .error = (st, true)) :=
  ⟨runUpdateAgentState_spec emptyAgentState handler exts start start c1 a1 hrun,
    fun _ => rfl⟩

theorem updateAgentState_converges_witness :
    ((⟨some 6, 5⟩ : VersionedField Nat) = ⟨some 6, 5⟩ ∧
      ∃ preVal : Option Nat, ∃ preVer : Nat,
        (⟨some 6, 5⟩ : VersionedField Nat) = ⟨some (preVal.getD 0 + 1), preVer + 1⟩) ∧
    (∀ st : VersionedField Nat, applyUpdateStateAnswer st .error = (st, true)) :=
  updateAgentState_converges 0 (· + 1) [[some 5], []] ⟨some 1, 3⟩ ⟨some 6, 5⟩ ⟨some 6, 5⟩
    (by decide)

/-! ## Session registry and self-report webhook (`src/unnamed/part_000`) -/

/-- Origin of a tracked session.  The source stores the string literals
`daemon` and `happy directly - likely by user from terminal`; the second
one is the externally-started case. -/
inductive StartedBy
  | daemon
  | external
deriving DecidableEq, Repr

/-- The part of a session's self-described metadata the daemon reads:
`hostPid` (the reporting OS pid, absent when not provided) plus the
remaining payload, kept abstract as one string. -/
structure SessionMetadata where
  hostPid : Option Nat
  payload : String
deriving DecidableEq, Repr

/-- `TrackedSession` from `src/daemon/types`: absent JS fields are `none`
/ `false`; `childProcess` records whether the entry owns a child-process
handle (present for daemon-spawned sessions only). -/
structure TrackedSession where
  startedBy : StartedBy
  pid : Nat
  happySessionId : Option String
  happySessionMetadataFromLocalWebhook : Option SessionMetadata
  childProcess : Bool
  directoryCreated : Bool
  message : Option String
deriving DecidableEq, Repr

/-- The daemon's module state: the registry `pidToTrackedSession` and the
keys of the awaiter map `pidToAwaiter` (`src/unnamed/part_000` lines
135–138). -/
structure DaemonSessions where
  pidToTrackedSession : List (Nat × TrackedSession)
  pidToAwaiter : List Nat
deriving DecidableEq, Repr

/-- Update applied by the webhook to an already-tracked daemon-spawned
session (`src/unnamed/part_000` lines 160–162). -/
def webhookUpdatedSession (existingSession : TrackedSession) (sessionId : String)
    (sessionMetadata : SessionMetadata) : TrackedSession :=
  { existingSession with
    happySessionId := some sessionId,
    happySessionMetadataFromLocalWebhook := some sessionMetadata }

/-- Externally-started session registered by the webhook when no entry
exists for the reporting pid (`src/unnamed/part_000` lines 174–180). -/
def externalSession (sessionId : String) (sessionMetadata : SessionMetadata)
    (pid : Nat) : TrackedSession :=
  { startedBy := .external,
    pid := pid,
    happySessionId := some sessionId,
    happySessionMetadataFromLocalWebhook := some sessionMetadata,
    childProcess := false,
    directoryCreated := false,
    message := none }

/-- `onHappySessionWebhook` (`src/unnamed/part_000` lines 144–183).  The
reporting pid is taken from the payload; a missing pid is ignored (the JS
guard `if (!pid) return` also drops a literal pid 0, which is falsy).  A
daemon-spawned entry for the pid is updated in place and its awaiter, when
present, is resolved (returned as the second component) and removed; an
unknown pid registers an externally-started session; an existing external
entry leaves everything untouched. -/
def onHappySessionWebhook (sessionId : String) (sessionMetadata : SessionMetadata)
    (st : DaemonSessions) : DaemonSessions × Option TrackedSession :=
  match sessionMetadata.hostPid with
  | none => (st, none)
  | some pid =>
    if pid = 0 then (st, none)
    else
      match mapGet st.pidToTrackedSession pid with
      | some existingSession =>
        if existingSession.startedBy = .daemon then
          let updated := webhookUpdatedSession existingSession sessionId sessionMetadata
          let st1 : DaemonSessions :=
            { st with pidToTrackedSession := mapSet st.pidToTrackedSession pid updated }
          if pidSetHas st1.pidToAwaiter pid then
            ({ st1 with pidToAwaiter := pidSetRemove st1.pidToAwaiter pid }, some updated)
          else (st1, none)
        else (st, none)
      | none =>
        let trackedSession := externalSession sessionId sessionMetadata pid
        ({ st with pidToTrackedSession := mapSet st.pidToTrackedSession pid trackedSession },
         none)

/-! ## Session spawner (`src/unnamed/part_000`, `spawnSession`) -/

/-- `SpawnSessionResult` tagged union (from
`src/modules/common/registerCommonHandlers`, as produced by
`spawnSession`). -/
inductive SpawnSessionResult
  | success (sessionId : String)
  | error (errorMessage : String)
  | requestToApproveDirectoryCreation (directory : String)
deriving DecidableEq, Repr

/-- Agent flavor requested for a spawn (`claude` or `codex`). -/
inductive AgentFlavor
  | claude
  | codex
deriving DecidableEq, Repr

/-- JS string-keyed record of environment variables, as a lookup function
from variable name to value. -/
def EnvRecord : Type := String → Option String

/-- The empty JS object. -/
def emptyEnv : EnvRecord := fun _ => none

/-- JS object spread of two records: keys of `overlay` win over keys of
`base` (`src/unnamed/part_000` lines 282–287 spread the layers in the
order base, overlay). -/
def spreadEnv (base overlay : EnvRecord) : EnvRecord :=
  fun k => match overlay k with
  | some v => some v
  | none => base k

/-- The options of `spawnSession` the embedded pipeline reads
(`SpawnSessionOptions`): omitted optional JS fields are `none`. -/
structure SpawnSessionOptions where
  directory : String
  approvedNewDirectoryCreation : Option Bool
  token : Option String
  agent : Option AgentFlavor
  environmentVariables : Option EnvRecord

/-- Auth material resolved into environment variables
(`src/unnamed/part_000` lines 237–257): with a token, the codex flavor
gets `CODEX_HOME` pointing at a fresh temporary directory holding the
token, any other flavor gets `CLAUDE_CODE_OAUTH_TOKEN`; without a token
the auth layer is empty. -/
def authEnvOf (options : SpawnSessionOptions) (codexHomeDir : String) : EnvRecord :=
  match options.token with
  | none => emptyEnv
  | some token =>
    if options.agent = some .codex then
      fun k => if k = "CODEX_HOME" then some codexHomeDir else none
    else
      fun k => if k = "CLAUDE_CODE_OAUTH_TOKEN" then some token else none

/-- The environment handed to the spawned child
(`src/unnamed/part_000` lines 282–287): the spread
of the base process environment, the caller-supplied variables
(`options.environmentVariables ||` empty) and the auth material, in that
order. -/
def childProcessEnv (processEnv : EnvRecord) (options : SpawnSessionOptions)
    (codexHomeDir : String) : EnvRecord :=
  spreadEnv (spreadEnv processEnv (options.environmentVariables.getD emptyEnv))
    (authEnvOf options codexHomeDir)

/-- OS error codes distinguished by the `mkdir` failure mapping
(`src/unnamed/part_000` lines 211–225). -/
inductive MkdirErrorCode
  | EACCES
  | ENOTDIR
  | ENOSPC
  | EROFS
  | other (message : String)
deriving DecidableEq, Repr

/-- Human-readable message built for a failed directory creation
(`src/unnamed/part_000` lines 212–225). -/
def mkdirErrorMessage (directory : String) (code : MkdirErrorCode) : String :=
  "Unable to create directory at \x27" ++ directory ++ "\x27. " ++
  match code with
  | .EACCES =>
      "Permission denied. You don\x27t have write access to create a folder at this location. Try using a different path or check your permissions."
  | .ENOTDIR =>
      "A file already exists at this path or in the parent path. Cannot create a directory here. Please choose a different location."
  | .ENOSPC =>
      "No space left on device. Your disk is full. Please free up some space and try again."
  | .EROFS =>
      "The file system is read-only. Cannot create directories here. Please choose a writable location."
  | .other message =>
      "System error: " ++ message ++ ". Please verify the path is valid and you have the necessary permissions."

/-- Outcome of the filesystem and process effects a single `spawnSession`
call runs into: whether `fs.access(directory)` succeeds, how
`fs.mkdir(directory, recursive)` would end, and the pid `spawnHappyCLI`
reports (`none` embeds a missing `happyProcess.pid`). -/
structure SpawnEffects where
  dirExists : Bool
  mkdirError : Option MkdirErrorCode
  spawnedPid : Option Nat
deriving DecidableEq, Repr

/-- Result of the synchronous part of `spawnSession`: either the call
already resolved (`immediate`), or a child was launched and the call is
awaiting the self-report webhook for its pid. -/
inductive SpawnPhase
  | immediate (result : SpawnSessionResult)
  | awaiting (pid : Nat)
deriving DecidableEq, Repr

/-- State and outcome of the synchronous part of one `spawnSession`
call. -/
structure SpawnStartOutcome where
  state : DaemonSessions
  createdDirectory : Bool
  phase : SpawnPhase
deriving DecidableEq, Repr

/-- The `TrackedSession` built by `spawnSession` for a fresh child
(`src/unnamed/part_000` lines 309–315): daemon-started, owning the child
handle, no session id yet. -/
def spawnedTrackedSession (pid : Nat) (directoryCreated : Bool) (directory : String) :
    TrackedSession :=
  { startedBy := .daemon,
    pid := pid,
    happySessionId := none,
    happySessionMetadataFromLocalWebhook := none,
    childProcess := true,
    directoryCreated := directoryCreated,
    message := if directoryCreated then
        some ("The path \x27" ++ directory ++
          "\x27 did not exist. We created a new folder and spawned a new session there.")
      else none }

/-- Registration performed after a pid is obtained
(`src/unnamed/part_000` lines 309–357): insert the `TrackedSession` and
register the spawn awaiter for the pid. -/
def registerSpawnedSession (pid : Nat) (directoryCreated : Bool) (directory : String)
    (st : DaemonSessions) : DaemonSessions :=
  { pidToTrackedSession :=
      mapSet st.pidToTrackedSession pid (spawnedTrackedSession pid directoryCreated directory),
    pidToAwaiter := pidSetAdd st.pidToAwaiter pid }

/-- Launch step of `spawnSession` (`src/unnamed/part_000` lines
278–357): a missing pid (the JS guard `if (!happyProcess.pid)`, which
also drops a literal 0) resolves immediately with an error; otherwise the
session and its awaiter are registered and the call awaits the webhook. -/
def spawnSessionLaunch (options : SpawnSessionOptions) (effects : SpawnEffects)
    (st : DaemonSessions) (directoryCreated : Bool) : SpawnStartOutcome :=
  match effects.spawnedPid with
  | none =>
    ⟨st, directoryCreated, .immediate (.error "Failed to spawn Happy process - no PID returned")⟩
  | some pid =>
    if pid = 0 then
      ⟨st, directoryCreated, .immediate (.error "Failed to spawn Happy process - no PID returned")⟩
    else
      ⟨registerSpawnedSession pid directoryCreated options.directory st, directoryCreated,
        .awaiting pid⟩

/-- The synchronous part of `spawnSession` (`src/unnamed/part_000` lines
186–357): check the directory, return `requestToApproveDirectoryCreation`
when it is missing and creation is unapproved (the flag defaults to true
when omitted), map a failed creation to an error message, then launch the
child. -/
def spawnSessionStart (options : SpawnSessionOptions) (effects : SpawnEffects)
    (st : DaemonSessions) : SpawnStartOutcome :=
  let approvedNewDirectoryCreation := options.approvedNewDirectoryCreation.getD true
  if effects.dirExists then
    spawnSessionLaunch options effects st false
  else if !approvedNewDirectoryCreation then
    ⟨st, false, .immediate (.requestToApproveDirectoryCreation options.directory)⟩
  else
    match effects.mkdirError with
    | some code =>
      ⟨st, false, .immediate (.error (mkdirErrorMessage options.directory code))⟩
    | none => spawnSessionLaunch options effects st true

/-- The 15-second webhook timeout of `spawnSession`
(`src/unnamed/part_000` lines 337–347). -/
def spawnWebhookTimeoutMs : Nat := 15000

/-- Firing of the webhook timeout (`src/unnamed/part_000` lines
338–347): the pending awaiter for the pid is removed and the spawn call
resolves with a timeout error; the tracked session itself is left in the
registry. -/
def awaiterTimeout (pid : Nat) (st : DaemonSessions) :
    DaemonSessions × SpawnSessionResult :=
  ({ st with pidToAwaiter := pidSetRemove st.pidToAwaiter pid },
   .error ("Session webhook timeout for PID " ++ toString pid))

/-- The awaiter callback registered by `spawnSession`
(`src/unnamed/part_000` lines 350–357): resolve the spawn call with
success carrying the reported session id
(`completedSession.happySessionId!`; the webhook populates the id before
resolving, so the default is never read). -/
def spawnAwaiterResolve (completedSession : TrackedSession) : SpawnSessionResult :=
  .success (completedSession.happySessionId.getD "")

/-! ## Stop operation (`src/unnamed/part_000`, `stopSession`) -/

/-- `parseInt` of JavaScript restricted to the strings at hand: the value
of the longest digit run at the start of the string, `none` when there is
no digit there (`parseInt` then returns NaN, which compares unequal to
every pid). -/
def jsParseIntNat (s : String) : Option Nat :=
  (s.takeWhile Char.isDigit).toNat?

/-- Match of one registry entry against a stop id
(`src/unnamed/part_000` lines 375–376): either the entry's
`happySessionId` equals the id, or the id has the synthetic form
`PID-<n>` and `n` parses to the entry's pid (with the `PID-` guard the
`replace` of the first occurrence is the drop of the 4-character
prefix). -/
def sessionMatchesId (stopId : String) (pid : Nat) (session : TrackedSession) : Bool :=
  session.happySessionId == some stopId ||
    (stopId.startsWith "PID-" && jsParseIntNat (stopId.drop 4) == some pid)

/-- First entry of the registry matching the stop id, in insertion order
(the for-of loop of `stopSession`). -/
def findStopTarget (stopId : String) : List (Nat × TrackedSession) → Option Nat
  | [] => none
  | (pid, session) :: rest =>
    if sessionMatchesId stopId pid session then some pid
    else findStopTarget stopId rest

/-- `stopSession` (`src/unnamed/part_000` lines 370–403): find the first
matching entry, send SIGTERM to the owned child handle (daemon-spawned)
or to the raw pid (external) — any delivery failure is caught and only
logged, which `signalDelivered` records without influencing anything —
then remove the entry from the registry and return true; return false
when nothing matches. -/
def stopSession (stopId : String) (signalDelivered : Bool) (st : DaemonSessions) :
    DaemonSessions × Bool :=
  match findStopTarget stopId st.pidToTrackedSession with
  | some pid =>
    ({ st with pidToTrackedSession := mapDelete st.pidToTrackedSession pid }, true)
  | none => (st, false)

/-! ## Daemon startup single-instance check (`src/unnamed/part_000`, `startDaemon`) -/

/-- `DaemonLocallyPersistedState` from `src/persistence`: the durable JSON
snapshot of the daemon identity (`src/unnamed/part_000` lines 421–427). -/
structure DaemonLocallyPersistedState where
  pid : Nat
  httpPort : Nat
  startTime : String
  startedWithCliVersion : String
  lastHeartbeat : Option String
  daemonLogPath : String
deriving DecidableEq, Repr

/-- The host-level resources the startup sequence touches: the persisted
state file, the exclusive lock marker, and whether the daemon recorded in
the state file is actually alive and answering on its control port. -/
structure DaemonHost where
  stateFile : Option DaemonLocallyPersistedState
  lockHeld : Bool
  daemonResponding : Bool
deriving DecidableEq, Repr

/-- Modelled from the spec: `isDaemonRunningCurrentlyInstalledHappyVersion`
from `src/daemon/controlClient` (repo code outside src/) decides whether a
same-version daemon is already running via State Persistence plus a
version comparison — the state file must exist, the recorded daemon must
be running, and its `startedWithCliVersion` must equal the current CLI
version. -/
def isDaemonRunningCurrentlyInstalledHappyVersion (currentCliVersion : String)
    (host : DaemonHost) : Bool :=
  match host.stateFile with
  | none => false
  | some st => host.daemonResponding && st.startedWithCliVersion == currentCliVersion

/-- Outcome of the startup prefix of `startDaemon`: the two clean
`process.exit(0)` paths (`src/unnamed/part_000` lines 109 and 116) and
the path that reaches the running daemon. -/
inductive StartDaemonOutcome
  | alreadyRunning
  | lockUnavailable
  | started
deriving DecidableEq, Repr

/-- Process exit code of each startup outcome: the already-running and
lock-unavailable paths exit cleanly with code 0; the started path keeps
running. -/
def startDaemonExitCode : StartDaemonOutcome → Option Nat
  | .alreadyRunning => some 0
  | .lockUnavailable => some 0
  | .started => none

/-- Startup prefix of `startDaemon` (`src/unnamed/part_000` lines
100–135 and 420–429): when a same-version daemon is already running, exit
cleanly with code 0 at once — before the lock is acquired and before any
write to the state file; otherwise stop the old daemon (modelled from the
spec for `controlClient.stopDaemon`, which terminates it and clears its
persisted state), acquire the lock (exit 0 when unavailable) and write
the initial persisted state. -/
def startDaemon (currentCliVersion : String) (selfPid controlPort : Nat)
    (startTime daemonLogPath : String) (lockAvailable : Bool) (host : DaemonHost) :
    StartDaemonOutcome × DaemonHost :=
  if isDaemonRunningCurrentlyInstalledHappyVersion currentCliVersion host then
    (.alreadyRunning, host)
  else
    let host1 : DaemonHost := { host with stateFile := none, daemonResponding := false }
    if !lockAvailable then (.lockUnavailable, host1)
    else
      let fileState : DaemonLocallyPersistedState :=
        { pid := selfPid,
          httpPort := controlPort,
          startTime := startTime,
          startedWithCliVersion := currentCliVersion,
          lastHeartbeat := none,
          daemonLogPath := daemonLogPath }
      (.started, { stateFile := some fileState, lockHeld := true, daemonResponding := true })

/-! ## Theorems about the daemon startup and the webhook -/

/-- C3: when a daemon with the same version is already running, a newly
started daemon exits cleanly with exit code 0 on the already-running path,
before acquiring the lock or writing the persisted state file; the host —
in particular the first daemon's state file — is left unaltered. -/
theorem startDaemon_alreadyRunning (currentCliVersion : String)
    (selfPid controlPort : Nat) (startTime daemonLogPath : String)
    (lockAvailable : Bool) (host : DaemonHost) (st : DaemonLocallyPersistedState)
    (hfile : host.stateFile = some st)
    (halive : host.daemonResponding = true)
    (hver : st.startedWithCliVersion = currentCliVersion) :
    startDaemon currentCliVersion selfPid controlPort startTime daemonLogPath
        lockAvailable host = (.alreadyRunning, host) ∧
    startDaemonExitCode .alreadyRunning = some 0 := by
  have hcheck : isDaemonRunningCurrentlyInstalledHappyVersion currentCliVersion host = true := by
    unfold isDaemonRunningCurrentlyInstalledHappyVersion
    rw [hfile]
    simp [halive, hver]
  refine ⟨?_, rfl⟩
  unfold startDaemon
  rw [hcheck]
  simp

theorem startDaemon_alreadyRunning_witness :
    startDaemon "1.2.3" 50 8080 "now" "/log" true
        ⟨some ⟨40, 9090, "before", "1.2.3", none, "/log0"⟩, true, true⟩ =
      (.alreadyRunning, ⟨some ⟨40, 9090, "before", "1.2.3", none, "/log0"⟩, true, true⟩) ∧
    startDaemonExitCode .alreadyRunning = some 0 :=
  startDaemon_alreadyRunning "1.2.3" 50 8080 "now" "/log" true
    ⟨some ⟨40, 9090, "before", "1.2.3", none, "/log0"⟩, true, true⟩
    ⟨40, 9090, "before", "1.2.3", none, "/log0"⟩ rfl rfl rfl

/-- Helper: the webhook equation for a pid whose registry entry is
daemon-started. -/
theorem onHappySessionWebhook_daemon_eq (sessionId : String)
    (sessionMetadata : SessionMetadata) (st : DaemonSessions)
    (pid : Nat) (existingSession : TrackedSession)
    (hpid : sessionMetadata.hostPid = some pid) (h0 : pid ≠ 0)
    (hlook : mapGet st.pidToTrackedSession pid = some existingSession)
    (hsb : existingSession.startedBy = .daemon) :
    onHappySessionWebhook sessionId sessionMetadata st =
      (⟨mapSet st.pidToTrackedSession pid
          (webhookUpdatedSession existingSession sessionId sessionMetadata),
        pidSetRemove st.pidToAwaiter pid⟩,
       if pidSetHas st.pidToAwaiter pid then
         some (webhookUpdatedSession existingSession sessionId sessionMetadata)
       else none) := by
  unfold onHappySessionWebhook
  rw [hpid]
  simp only [h0, if_false, hlook, hsb]
  by_cases haw : pidSetHas st.pidToAwaiter pid
  · simp [haw]
  · simp only [Bool.not_eq_true] at haw
    simp [haw, pidSetRemove_of_not_has st.pidToAwaiter pid haw]

/-- C5: the self-report webhook ignores a payload without a reporting pid
and leaves the registry unchanged; for a pid with an existing
daemon-started entry it updates that entry's session id and metadata in
place, resolving and removing a pending awaiter when there is one; for an
unknown pid it inserts a new externally-started entry. -/
theorem onHappySessionWebhook_cases (sessionId : String)
    (sessionMetadata : SessionMetadata) (st : DaemonSessions) :
    (sessionMetadata.hostPid = none →
      onHappySessionWebhook sessionId sessionMetadata st = (st, none)) ∧
    (∀ pid existingSession,
      sessionMetadata.hostPid = some pid → pid ≠ 0 →
      mapGet st.pidToTrackedSession pid = some existingSession →
      existingSession.startedBy = .daemon →
      onHappySessionWebhook sessionId sessionMetadata st =
        (⟨mapSet st.pidToTrackedSession pid
            (webhookUpdatedSession existingSession sessionId sessionMetadata),
          pidSetRemove st.pidToAwaiter pid⟩,
         if pidSetHas st.pidToAwaiter pid then
           some (webhookUpdatedSession existingSession sessionId sessionMetadata)
         else none)) ∧
    (∀ pid,
      sessionMetadata.hostPid = some pid → pid ≠ 0 →
      mapGet st.pidToTrackedSession pid = none →
      onHappySessionWebhook sessionId sessionMetadata st =
        (⟨mapSet st.pidToTrackedSession pid (externalSession sessionId sessionMetadata pid),
          st.pidToAwaiter⟩, none)) := by
  refine ⟨?_, ?_, ?_⟩
  · intro h
    unfold onHappySessionWebhook
    rw [h]
  · intro pid existingSession hpid h0 hlook hsb
    exact onHappySessionWebhook_daemon_eq sessionId sessionMetadata st pid existingSession
      hpid h0 hlook hsb
  · intro pid hpid h0 hlook
    unfold onHappySessionWebhook
    rw [hpid]
    simp [h0, hlook]

theorem onHappySessionWebhook_cases_witness :
    onHappySessionWebhook "sess-9" ⟨some 42, "m"⟩
        ⟨[(42, ⟨.daemon, 42, none, none, true, false, none⟩)], [42]⟩ =
      (⟨mapSet [(42, ⟨.daemon, 42, none, none, true, false, none⟩)] 42
          (webhookUpdatedSession ⟨.daemon, 42, none, none, true, false, none⟩ "sess-9"
            ⟨some 42, "m"⟩),
        pidSetRemove [42] 42⟩,
       if pidSetHas [42] 42 then
         some (webhookUpdatedSession ⟨.daemon, 42, none, none, true, false, none⟩ "sess-9"
            ⟨some 42, "m"⟩)
       else none) :=
  (onHappySessionWebhook_cases "sess-9" ⟨some 42, "m"⟩
      ⟨[(42, ⟨.daemon, 42, none, none, true, false, none⟩)], [42]⟩).2.1 42
    ⟨.daemon, 42, none, none, true, false, none⟩ rfl (by decide) (by decide) rfl

/-- C10: a self-report webhook for a pid whose existing registry entry is
externally started leaves the daemon state completely unchanged and
resolves no awaiter. -/
theorem onHappySessionWebhook_external_frame (sessionId : String)
    (sessionMetadata : SessionMetadata) (st : DaemonSessions)
    (pid : Nat) (existingSession : TrackedSession)
    (hpid : sessionMetadata.hostPid = some pid)
    (hlook : mapGet st.pidToTrackedSession pid = some existingSession)
    (hext : existingSession.startedBy = .external) :
    onHappySessionWebhook sessionId sessionMetadata st = (st, none) := by
  unfold onHappySessionWebhook
  rw [hpid]
  by_cases h0 : pid = 0
  · simp [h0]
  · simp [h0, hlook, hext]

theorem onHappySessionWebhook_external_frame_witness :
    onHappySessionWebhook "sess-2" ⟨some 9, "m"⟩
        ⟨[(9, externalSession "sess-1" ⟨some 9, "m0"⟩ 9)], []⟩ =
      (⟨[(9, externalSession "sess-1" ⟨some 9, "m0"⟩ 9)], []⟩, none) :=
  onHappySessionWebhook_external_frame "sess-2" ⟨some 9, "m"⟩
    ⟨[(9, externalSession "sess-1" ⟨some 9, "m0"⟩ 9)], []⟩ 9
    (externalSession "sess-1" ⟨some 9, "m0"⟩ 9) rfl (by decide) (by decide)

/-- C2 (counterexample): when the self-report webhook arrives before the
spawn-side registration, the webhook registers an externally-started
session and resolves nothing; the registration then overwrites that entry
with an unpopulated daemon entry whose awaiter the already-delivered
webhook can no longer resolve, so the spawn call ends in the timeout
error instead of success — the two orders are not equivalent. -/
theorem spawn_webhook_order_counterexample :
    (onHappySessionWebhook "sess-1" ⟨some 42, "m"⟩ ⟨[], []⟩).2 = none ∧
    mapGet (registerSpawnedSession 42 false "/work"
        (onHappySessionWebhook "sess-1" ⟨some 42, "m"⟩ ⟨[], []⟩).1).pidToTrackedSession 42 =
      some ⟨.daemon, 42, none, none, true, false, none⟩ ∧
    awaiterTimeout 42 (registerSpawnedSession 42 false "/work"
        (onHappySessionWebhook "sess-1" ⟨some 42, "m"⟩ ⟨[], []⟩).1) =
      (⟨[(42, ⟨.daemon, 42, none, none, true, false, none⟩)], []⟩,
       .error "Session webhook timeout for PID 42") := by
  decide

/-- C2 (amended): the implementation registers the tracked session and the
awaiter synchronously with the spawn, so the awaiter is in place before
any webhook can run; in that order the registry entry for the pid ends
fully populated (daemon-started, carrying the reported session id), the
spawn call resolves with success, and a second webhook resolution for the
same pid after the first is silently ignored.  In the opposite
(webhook-first) order the entry is overwritten unpopulated and the
awaiter is never resolved (see the counterexample). -/
theorem spawn_then_webhook_resolves (sessionId : String)
    (sessionMetadata : SessionMetadata) (st : DaemonSessions)
    (pid : Nat) (directoryCreated : Bool) (directory : String)
    (hpid : sessionMetadata.hostPid = some pid) (h0 : pid ≠ 0) :
    ∃ completedSession : TrackedSession,
      (onHappySessionWebhook sessionId sessionMetadata
          (registerSpawnedSession pid directoryCreated directory st)).2 =
        some completedSession ∧
      completedSession.startedBy = .daemon ∧
      completedSession.happySessionId = some sessionId ∧
      spawnAwaiterResolve completedSession = .success sessionId ∧
      mapGet (onHappySessionWebhook sessionId sessionMetadata
          (registerSpawnedSession pid directoryCreated directory st)).1.pidToTrackedSession
          pid = some completedSession ∧
      (∀ sessionId2 sessionMetadata2, sessionMetadata2.hostPid = some pid →
        (onHappySessionWebhook sessionId2 sessionMetadata2
          (onHappySessionWebhook sessionId sessionMetadata
            (registerSpawnedSession pid directoryCreated directory st)).1).2 = none) := by
  have hlook : mapGet (registerSpawnedSession pid directoryCreated directory
      st).pidToTrackedSession pid = some (spawnedTrackedSession pid directoryCreated directory) :=
    mapGet_mapSet_self st.pidToTrackedSession pid _
  have haw : pidSetHas (registerSpawnedSession pid directoryCreated directory
      st).pidToAwaiter pid = true :=
    pidSetHas_add_self st.pidToAwaiter pid
  have heq := onHappySessionWebhook_daemon_eq sessionId sessionMetadata
    (registerSpawnedSession pid directoryCreated directory st) pid
    (spawnedTrackedSession pid directoryCreated directory) hpid h0 hlook rfl
  refine ⟨webhookUpdatedSession (spawnedTrackedSession pid directoryCreated directory)
      sessionId sessionMetadata, ?_, rfl, rfl, rfl, ?_, ?_⟩
  · rw [heq, haw]
    simp
  · rw [heq]
    exact mapGet_mapSet_self _ pid _
  · intro sessionId2 sessionMetadata2 hpid2
    have hlook2 : mapGet (onHappySessionWebhook sessionId sessionMetadata
        (registerSpawnedSession pid directoryCreated directory st)).1.pidToTrackedSession
        pid = some (webhookUpdatedSession (spawnedTrackedSession pid directoryCreated directory)
          sessionId sessionMetadata) := by
      rw [heq]
      exact mapGet_mapSet_self _ pid _
    have heq2 := onHappySessionWebhook_daemon_eq sessionId2 sessionMetadata2
      (onHappySessionWebhook sessionId sessionMetadata
        (registerSpawnedSession pid directoryCreated directory st)).1 pid
      (webhookUpdatedSession (spawnedTrackedSession pid directoryCreated directory)
        sessionId sessionMetadata) hpid2 h0 hlook2 rfl
    rw [heq2]
    have hrem : pidSetHas (onHappySessionWebhook sessionId sessionMetadata
        (registerSpawnedSession pid directoryCreated directory st)).1.pidToAwaiter pid
        = false := by
      rw [heq]
      exact pidSetHas_remove_self _ pid
    rw [hrem]
    simp

theorem spawn_then_webhook_resolves_witness :
    ∃ completedSession : TrackedSession,
      (onHappySessionWebhook "sess-5" ⟨some 3, "m"⟩
          (registerSpawnedSession 3 false "/w" ⟨[], []⟩)).2 = some completedSession ∧
      completedSession.startedBy = .daemon ∧
      completedSession.happySessionId = some "sess-5" ∧
      spawnAwaiterResolve completedSession = .success "sess-5" ∧
      mapGet (onHappySessionWebhook "sess-5" ⟨some 3, "m"⟩
          (registerSpawnedSession 3 false "/w" ⟨[], []⟩)).1.pidToTrackedSession 3 =
        some completedSession ∧
      (∀ sessionId2 sessionMetadata2, sessionMetadata2.hostPid = some 3 →
        (onHappySessionWebhook sessionId2 sessionMetadata2
          (onHappySessionWebhook "sess-5" ⟨some 3, "m"⟩
            (registerSpawnedSession 3 false "/w" ⟨[], []⟩)).1).2 = none) :=
  spawn_then_webhook_resolves "sess-5" ⟨some 3, "m"⟩ ⟨[], []⟩ 3 false "/w" rfl (by decide)

/-- C4: a spawn that obtains no child pid resolves at once with a spawn
error (no awaiter is registered and nothing is tracked, so no timeout can
be involved); a spawn that obtains a pid but never sees the self-report
webhook resolves with the timeout error when the 15-second awaiter
timeout fires, the pending awaiter for the pid is removed, and the
tracked session stays in the registry, daemon-started with no session
id. -/
theorem spawnSession_failure_modes (options : SpawnSessionOptions)
    (effects : SpawnEffects) (st : DaemonSessions) (pid : Nat)
    (hdir : effects.dirExists = true) :
    (effects.spawnedPid = none →
      spawnSessionStart options effects st =
        ⟨st, false, .immediate (.error "Failed to spawn Happy process - no PID returned")⟩) ∧
    (effects.spawnedPid = some pid → pid ≠ 0 →
      spawnSessionStart options effects st =
        ⟨registerSpawnedSession pid false options.directory st, false, .awaiting pid⟩ ∧
      (awaiterTimeout pid (registerSpawnedSession pid false options.directory st)).2 =
        .error ("Session webhook timeout for PID " ++ toString pid) ∧
      pidSetHas (awaiterTimeout pid
          (registerSpawnedSession pid false options.directory st)).1.pidToAwaiter pid =
        false ∧
      mapGet (awaiterTimeout pid
          (registerSpawnedSession pid false options.directory st)).1.pidToTrackedSession pid =
        some (spawnedTrackedSession pid false options.directory) ∧
      (spawnedTrackedSession pid false options.directory).startedBy = .daemon ∧
      (spawnedTrackedSession pid false options.directory).happySessionId = none) := by
  constructor
  · intro hnone
    unfold spawnSessionStart spawnSessionLaunch
    rw [hdir, hnone]
    simp
  · intro hsome h0
    refine ⟨?_, rfl, pidSetHas_remove_self _ pid, ?_, rfl, rfl⟩
    · unfold spawnSessionStart spawnSessionLaunch
      rw [hdir, hsome]
      simp [h0]
    · exact mapGet_mapSet_self st.pidToTrackedSession pid _

theorem spawnSession_failure_modes_witness :
    ((⟨true, none, none⟩ : SpawnEffects).spawnedPid = none →
      spawnSessionStart ⟨"/w", none, none, none, none⟩ ⟨true, none, none⟩ ⟨[], []⟩ =
        ⟨⟨[], []⟩, false,
          .immediate (.error "Failed to spawn Happy process - no PID returned")⟩) ∧
    ((⟨true, none, none⟩ : SpawnEffects).spawnedPid = some 8 → 8 ≠ 0 →
      spawnSessionStart ⟨"/w", none, none, none, none⟩ ⟨true, none, none⟩ ⟨[], []⟩ =
        ⟨registerSpawnedSession 8 false "/w" ⟨[], []⟩, false, .awaiting 8⟩ ∧
      (awaiterTimeout 8 (registerSpawnedSession 8 false "/w" ⟨[], []⟩)).2 =
        .error ("Session webhook timeout for PID " ++ toString 8) ∧
      pidSetHas (awaiterTimeout 8
          (registerSpawnedSession 8 false "/w" ⟨[], []⟩)).1.pidToAwaiter 8 = false ∧
      mapGet (awaiterTimeout 8
          (registerSpawnedSession 8 false "/w" ⟨[], []⟩)).1.pidToTrackedSession 8 =
        some (spawnedTrackedSession 8 false "/w") ∧
      (spawnedTrackedSession 8 false "/w").startedBy = .daemon ∧
      (spawnedTrackedSession 8 false "/w").happySessionId = none) :=
  spawnSession_failure_modes ⟨"/w", none, none, none, none⟩ ⟨true, none, none⟩ ⟨[], []⟩ 8 rfl

/-- C7: spawning into a missing directory with creation explicitly
unapproved resolves with `requestToApproveDirectoryCreation` carrying the
directory, creates nothing and launches nothing (the daemon state is
untouched); with creation approved and the recursive `mkdir` succeeding,
the directory is created and the spawn proceeds to launch and track the
child. -/
theorem spawnSession_directoryApproval (options : SpawnSessionOptions)
    (effects : SpawnEffects) (st : DaemonSessions) (pid : Nat)
    (hdir : effects.dirExists = false) :
    (options.approvedNewDirectoryCreation = some false →
      spawnSessionStart options effects st =
        ⟨st, false, .immediate (.requestToApproveDirectoryCreation options.directory)⟩) ∧
    (options.approvedNewDirectoryCreation.getD true = true →
      effects.mkdirError = none → effects.spawnedPid = some pid → pid ≠ 0 →
      spawnSessionStart options effects st =
        ⟨registerSpawnedSession pid true options.directory st, true, .awaiting pid⟩) := by
  constructor
  · intro happ
    unfold spawnSessionStart
    rw [hdir, happ]
    simp
  · intro happ hmk hsome h0
    unfold spawnSessionStart spawnSessionLaunch
    rw [hdir, happ, hmk, hsome]
    simp [h0]

theorem spawnSession_directoryApproval_witness :
    ((⟨"/new", some false, none, none, none⟩ : SpawnSessionOptions).approvedNewDirectoryCreation
        = some false →
      spawnSessionStart ⟨"/new", some false, none, none, none⟩ ⟨false, none, some 4⟩ ⟨[], []⟩ =
        ⟨⟨[], []⟩, false, .immediate (.requestToApproveDirectoryCreation "/new")⟩) ∧
    ((⟨"/new", some false, none, none, none⟩ : SpawnSessionOptions).approvedNewDirectoryCreation.getD
        true = true →
      (⟨false, none, some 4⟩ : SpawnEffects).mkdirError = none →
      (⟨false, none, some 4⟩ : SpawnEffects).spawnedPid = some 4 → 4 ≠ 0 →
      spawnSessionStart ⟨"/new", some false, none, none, none⟩ ⟨false, none, some 4⟩ ⟨[], []⟩ =
        ⟨registerSpawnedSession 4 true "/new" ⟨[], []⟩, true, .awaiting 4⟩) :=
  spawnSession_directoryApproval ⟨"/new", some false, none, none, none⟩
    ⟨false, none, some 4⟩ ⟨[], []⟩ 4 rfl

theorem spawnSessionLaunch_no_approval_request (options : SpawnSessionOptions)
    (effects : SpawnEffects) (st : DaemonSessions) (directoryCreated : Bool)
    (d : String) :
    (spawnSessionLaunch options effects st directoryCreated).phase ≠
      .immediate (.requestToApproveDirectoryCreation d) := by
  unfold spawnSessionLaunch
  match hp : effects.spawnedPid with
  | none => simp
  | some pid =>
    by_cases h0 : pid = 0
    · simp [h0]
    · simp [h0]

/-- C9: an omitted `approvedNewDirectoryCreation` defaults to true — a
spawn into a missing directory with the flag absent creates the directory
and proceeds — and a `requestToApproveDirectoryCreation` outcome is only
reachable when the caller explicitly passed the flag as false (and it
then carries the spawn's directory). -/
theorem approvedNewDirectoryCreation_default (options : SpawnSessionOptions)
    (effects : SpawnEffects) (st : DaemonSessions) (pid : Nat) :
    (options.approvedNewDirectoryCreation = none → effects.dirExists = false →
      effects.mkdirError = none → effects.spawnedPid = some pid → pid ≠ 0 →
      spawnSessionStart options effects st =
        ⟨registerSpawnedSession pid true options.directory st, true, .awaiting pid⟩) ∧
    (∀ d, (spawnSessionStart options effects st).phase =
        .immediate (.requestToApproveDirectoryCreation d) →
      options.approvedNewDirectoryCreation = some false ∧ d = options.directory) := by
  constructor
  · intro habs hdir hmk hsome h0
    unfold spawnSessionStart spawnSessionLaunch
    rw [hdir, habs, hmk, hsome]
    simp [h0]
  · intro d hphase
    unfold spawnSessionStart at hphase
    by_cases hdir : effects.dirExists
    · rw [if_pos hdir] at hphase
      exact absurd hphase (spawnSessionLaunch_no_approval_request options effects st false d)
    · simp only [Bool.not_eq_true] at hdir
      rw [hdir] at hphase
      simp only [Bool.false_eq_true, if_false] at hphase
      by_cases happ : options.approvedNewDirectoryCreation.getD true
      · rw [happ] at hphase
        simp only [Bool.not_true, Bool.false_eq_true, if_false] at hphase
        match hmk : effects.mkdirError with
        | some code =>
          rw [hmk] at hphase
          simp at hphase
        | none =>
          rw [hmk] at hphase
          exact absurd hphase (spawnSessionLaunch_no_approval_request options effects st true d)
      · simp only [Bool.not_eq_true] at happ
        rw [happ] at hphase
        simp only [Bool.not_false, if_true] at hphase
        simp only [SpawnPhase.immediate.injEq,
          SpawnSessionResult.requestToApproveDirectoryCreation.injEq] at hphase
        refine ⟨?_, hphase.symm⟩
        match hval : options.approvedNewDirectoryCreation with
        | none => rw [hval] at happ; simp [Option.getD] at happ
        | some b =>
          rw [hval] at happ
          simp only [Option.getD_some] at happ
          rw [happ]

theorem approvedNewDirectoryCreation_default_witness :
    ((⟨"/fresh", none, none, none, none⟩ : SpawnSessionOptions).approvedNewDirectoryCreation
        = none →
      (⟨false, none, some 6⟩ : SpawnEffects).dirExists = false →
      (⟨false, none, some 6⟩ : SpawnEffects).mkdirError = none →
      (⟨false, none, some 6⟩ : SpawnEffects).spawnedPid = some 6 → 6 ≠ 0 →
      spawnSessionStart ⟨"/fresh", none, none, none, none⟩ ⟨false, none, some 6⟩ ⟨[], []⟩ =
        ⟨registerSpawnedSession 6 true "/fresh" ⟨[], []⟩, true, .awaiting 6⟩) ∧
    (∀ d, (spawnSessionStart ⟨"/fresh", none, none, none, none⟩ ⟨false, none, some 6⟩
        ⟨[], []⟩).phase = .immediate (.requestToApproveDirectoryCreation d) →
      (⟨"/fresh", none, none, none, none⟩ : SpawnSessionOptions).approvedNewDirectoryCreation
          = some false ∧
        d = "/fresh") :=
  approvedNewDirectoryCreation_default ⟨"/fresh", none, none, none, none⟩
    ⟨false, none, some 6⟩ ⟨[], []⟩ 6

/-- C8: for every variable name, the environment handed to the launched
child is the merge of the base process environment, the caller-supplied
variables and the injected auth material with precedence base <
caller-supplied < auth: an auth binding always wins, otherwise a
caller-supplied binding wins, otherwise the base binding is used. -/
theorem childProcessEnv_precedence (processEnv : EnvRecord)
    (options : SpawnSessionOptions) (codexHomeDir : String) (k : String) :
    childProcessEnv processEnv options codexHomeDir k =
      match authEnvOf options codexHomeDir k with
      | some v => some v
      | none =>
        match (options.environmentVariables.getD emptyEnv) k with
        | some v => some v
        | none => processEnv k := by
  unfold childProcessEnv spreadEnv
  match authEnvOf options codexHomeDir k with
  | some v => rfl
  | none => rfl

/-- Helper for C6: a found stop target is a matching registry entry. -/
theorem findStopTarget_some (stopId : String) (m : List (Nat × TrackedSession))
    (pid : Nat) (hfind : findStopTarget stopId m = some pid) :
    ∃ session, (pid, session) ∈ m ∧ sessionMatchesId stopId pid session = true := by
  induction m with
  | nil => simp [findStopTarget] at hfind
  | cons hd tl ih =>
    obtain ⟨p0, s0⟩ := hd
    unfold findStopTarget at hfind
    by_cases hm : sessionMatchesId stopId p0 s0
    · rw [if_pos hm, Option.some.injEq] at hfind
      exact ⟨s0, by simp [← hfind], hfind ▸ hm⟩
    · rw [if_neg hm] at hfind
      obtain ⟨s, hmem, hmatch⟩ := ih hfind
      exact ⟨s, List.mem_cons_of_mem _ hmem, hmatch⟩

/-- Helper for C6: no stop target is found exactly when no entry
matches. -/
theorem findStopTarget_none (stopId : String) (m : List (Nat × TrackedSession)) :
    findStopTarget stopId m = none ↔
      ∀ p s, (p, s) ∈ m → sessionMatchesId stopId p s = false := by
  induction m with
  | nil => simp [findStopTarget]
  | cons hd tl ih =>
    obtain ⟨p0, s0⟩ := hd
    unfold findStopTarget
    by_cases hm : sessionMatchesId stopId p0 s0
    · simp only [if_pos hm]
      constructor
      · intro h; exact absurd h (by simp)
      · intro h
        have := h p0 s0 (by simp)
        rw [hm] at this
        exact absurd this (by simp)
    · simp only [if_neg hm]
      rw [ih]
      constructor
      · intro h p s hmem
        rcases List.mem_cons.mp hmem with heq | htl
        · obtain ⟨h1, h2⟩ := Prod.mk.injEq .. ▸ heq
          rw [h1, h2]
          exact Bool.not_eq_true _ ▸ hm
        · exact h p s htl
      · intro h p s hmem
        exact h p s (List.mem_cons_of_mem _ hmem)

/-- Helper for C6: membership in the registry after a key deletion. -/
theorem mem_mapDelete {α : Type} (m : List (Nat × α)) (k p : Nat) (s : α) :
    (p, s) ∈ mapDelete m k ↔ (p, s) ∈ m ∧ p ≠ k := by
  induction m with
  | nil => simp [mapDelete]
  | cons hd tl ih =>
    obtain ⟨k0, v0⟩ := hd
    unfold mapDelete
    by_cases hk : k0 = k
    · rw [if_pos hk, ih]
      constructor
      · intro ⟨hmem, hne⟩
        exact ⟨List.mem_cons_of_mem _ hmem, hne⟩
      · intro ⟨hmem, hne⟩
        rcases List.mem_cons.mp hmem with heq | htl
        · obtain ⟨h1, -⟩ := Prod.mk.injEq .. ▸ heq
          exact absurd (h1.trans hk) hne
        · exact ⟨htl, hne⟩
    · rw [if_neg hk]
      constructor
      · intro hmem
        rcases List.mem_cons.mp hmem with heq | htl
        · obtain ⟨h1, h2⟩ := Prod.mk.injEq .. ▸ heq
          exact ⟨by simp [h1, h2], by rw [h1]; exact hk⟩
        · obtain ⟨hm2, hne⟩ := ih.mp htl
          exact ⟨List.mem_cons_of_mem _ hm2, hne⟩
      · intro ⟨hmem, hne⟩
        rcases List.mem_cons.mp hmem with heq | htl
        · rw [heq]; exact List.mem_cons_self _ _
        · exact List.mem_cons_of_mem _ (ih.mpr ⟨htl, hne⟩)

/-- C6: `stopSession` returns true exactly when some registry entry
matches the id (by `happySessionId`, or by pid for a synthetic `PID-<n>`
id); the result is independent of whether the termination signal could be
delivered (failures are swallowed); and — provided at most one entry
matches the id — after a successful stop no matching entry remains, so a
second stop with the same id returns false. -/
theorem stopSession_spec (stopId : String) (signalDelivered : Bool)
    (st : DaemonSessions)
    (huniq : ∀ p s p' s', (p, s) ∈ st.pidToTrackedSession →
      (p', s') ∈ st.pidToTrackedSession →
      sessionMatchesId stopId p s = true → sessionMatchesId stopId p' s' = true → p = p') :
    ((stopSession stopId signalDelivered st).2 = true ↔
      ∃ p s, (p, s) ∈ st.pidToTrackedSession ∧ sessionMatchesId stopId p s = true) ∧
    (∀ b, stopSession stopId b st = stopSession stopId signalDelivered st) ∧
    ((stopSession stopId signalDelivered st).2 = true →
      (∀ p s, (p, s) ∈ (stopSession stopId signalDelivered st).1.pidToTrackedSession →
        sessionMatchesId stopId p s = false) ∧
      (stopSession stopId signalDelivered
          (stopSession stopId signalDelivered st).1).2 = false) := by
  refine ⟨?_, fun b => rfl, ?_⟩
  · unfold stopSession
    match hfind : findStopTarget stopId st.pidToTrackedSession with
    | some pid =>
      simp only
      constructor
      · intro
        obtain ⟨s, hmem, hmatch⟩ := findStopTarget_some stopId _ pid hfind
        exact ⟨pid, s, hmem, hmatch⟩
      · intro
        trivial
    | none =>
      simp only
      constructor
      · intro h; exact absurd h (by simp)
      · intro ⟨p, s, hmem, hmatch⟩
        have := (findStopTarget_none stopId st.pidToTrackedSession).mp hfind p s hmem
        rw [hmatch] at this
        exact absurd this (by simp)
  · intro hfound
    unfold stopSession at hfound
    match hfind : findStopTarget stopId st.pidToTrackedSession with
    | none => rw [hfind] at hfound; simp at hfound
    | some pid =>
      obtain ⟨s0, hmem0, hmatch0⟩ := findStopTarget_some stopId _ pid hfind
      have hnomatch : ∀ p s,
          (p, s) ∈ mapDelete st.pidToTrackedSession pid →
          sessionMatchesId stopId p s = false := by
        intro p s hmem
        obtain ⟨hmem2, hne⟩ := (mem_mapDelete st.pidToTrackedSession pid p s).mp hmem
        by_cases hms : sessionMatchesId stopId p s
        · exact absurd (huniq p s pid s0 hmem2 hmem0 hms hmatch0) hne
        · exact Bool.not_eq_true _ ▸ hms
      have hstate : (stopSession stopId signalDelivered st).1 =
          ⟨mapDelete st.pidToTrackedSession pid, st.pidToAwaiter⟩ := by
        unfold stopSession
        rw [hfind]
      constructor
      · intro p s hmem
        rw [hstate] at hmem
        exact hnomatch p s hmem
      · rw [hstate]
        unfold stopSession
        simp only
        have : findStopTarget stopId (mapDelete st.pidToTrackedSession pid) = none :=
          (findStopTarget_none stopId _).mpr hnomatch
        rw [this]

theorem stopSession_spec_witness :
    ((stopSession "sess-A" true
        ⟨[(7, ⟨.daemon, 7, some "sess-A", none, true, false, none⟩)], []⟩).2 = true ↔
      ∃ p s, (p, s) ∈ (⟨[(7, ⟨.daemon, 7, some "sess-A", none, true, false, none⟩)], []⟩
          : DaemonSessions).pidToTrackedSession ∧
        sessionMatchesId "sess-A" p s = true) ∧
    (∀ b, stopSession "sess-A" b
        ⟨[(7, ⟨.daemon, 7, some "sess-A", none, true, false, none⟩)], []⟩ =
      stopSession "sess-A" true
        ⟨[(7, ⟨.daemon, 7, some "sess-A", none, true, false, none⟩)], []⟩) ∧
    ((stopSession "sess-A" true
        ⟨[(7, ⟨.daemon, 7, some "sess-A", none, true, false, none⟩)], []⟩).2 = true →
      (∀ p s, (p, s) ∈ (stopSession "sess-A" true
          ⟨[(7, ⟨.daemon, 7, some "sess-A", none, true, false, none⟩)],
            []⟩).1.pidToTrackedSession →
        sessionMatchesId "sess-A" p s = false) ∧
      (stopSession "sess-A" true (stopSession "sess-A" true
          ⟨[(7, ⟨.daemon, 7, some "sess-A", none, true, false, none⟩)], []⟩).1).2 = false) :=
  stopSession_spec "sess-A" true
    ⟨[(7, ⟨.daemon, 7, some "sess-A", none, true, false, none⟩)], []⟩
    (by
      intro p s p' s' hp hp' h1 h2
      simp only [List.mem_singleton, Prod.ext_iff] at hp hp'
      simp [hp.1, hp'.1])

end HappyCli
